import Mathlib

/-!
Shallow embedding of the `transitworld` Rust crate (a typed client for the
Transitland v2 REST API), covering the parts of `src/api.rs`,
`src/data/mod.rs` and `src/data/partial.rs` that the specification's claims
talk about:

* the JSON value space and serde-style deserializers for the domain types
  (structs deserialize from JSON objects: required fields must be present
  and well-typed, `Option` fields default to `none` when absent);
* the `TransitlandObject<P>` trait (`query_path` / `by_id_path`) and its
  implementations (the `impl_object!` macro instances and the nested
  `Trip : TransitlandObject<u64>` instance);
* the `Request` builder (`new`, `with_spec`, `with_limit`, `with_base_url`)
  and the request-building and response-handling logic of
  `search_with_parent` / `get_with_parent` (the HTTP transport is a
  parameter: a function from the built request to either an error string or
  a response body);
* the `SearchResponse` envelope (`meta` plus a flattened
  `HashMap<String, Vec<T>>`), its `values()` accessor and the unimplemented
  `search_next()`.

Machine integers (`u64`) are modelled as `Nat` (the code does no arithmetic
on them, only formatting), `f64` as `Float`, `Vec` as `List`, and
`HashMap<String, V>` as a list of entries.  Because Rust's `std::HashMap`
does not specify an iteration order, deserializing a body into a
`SearchResponse` is modelled as a relation (`SearchDeserializesTo`): the
envelope's entry list may come out in any permutation of the body's key
order.
-/

/-- JSON values, the codomain of response bodies.  Numbers are carried as
`Nat`: every number the claims exercise is a `u64` field. -/
inductive Json where
  | null : Json
  | bool (b : Bool) : Json
  | num (n : Nat) : Json
  | str (s : String) : Json
  | arr (elems : List Json) : Json
  | obj (fields : List (String × Json)) : Json

/-- First binding of a key in a JSON object, as serde sees a map entry. -/
def lookupField (fields : List (String × Json)) (name : String) : Option Json :=
  (fields.find? fun kv => kv.fst == name).map Prod.snd

/-- Serde's `Option<T>` deserializer: `null` is `None`, anything else must
deserialize as `T`. -/
def deserializeOption {α : Type} (d : Json → Option α) : Json → Option (Option α)
  | .null => some none
  | j => (d j).map some

/-- A required struct field: it must be present and deserialize. -/
def reqField {α : Type} (d : Json → Option α) (fields : List (String × Json))
    (name : String) : Option α :=
  (lookupField fields name).bind d

/-- An `Option` struct field: absent means `none`, present means it goes
through the `Option` deserializer. -/
def optField {α : Type} (d : Json → Option α) (fields : List (String × Json))
    (name : String) : Option (Option α) :=
  match lookupField fields name with
  | none => some none
  | some j => deserializeOption d j

/-- Deserializer for `u64` fields. -/
def deserializeU64 : Json → Option Nat
  | .num n => some n
  | _ => none

/-- Deserializer for `String` fields. -/
def deserializeString : Json → Option String
  | .str s => some s
  | _ => none

/-- Deserializer for `bool` fields. -/
def deserializeBool : Json → Option Bool
  | .bool b => some b
  | _ => none

/-- Deserializer for `f64` fields (the embedding's JSON numbers are
integral, so the value is converted via `Float.ofNat`). -/
def deserializeF64 : Json → Option Float
  | .num n => some (Float.ofNat n)
  | _ => none

/-- Deserializer for two-element tuples such as `(f64, f64)`: an array of
exactly two elements. -/
def deserializePair {α β : Type} (da : Json → Option α) (db : Json → Option β) :
    Json → Option (α × β)
  | .arr [a, b] => (da a).bind fun x => (db b).map fun y => (x, y)
  | _ => none

/-- Deserializer for `Vec<T>`: an array, each element deserialized in
order. -/
def deserializeVec {α : Type} (d : Json → Option α) : Json → Option (List α)
  | .arr xs => xs.mapM d
  | _ => none

/-- Deserializer for `HashMap<String, String>` fields (entries in body
order). -/
def deserializeStringMap : Json → Option (List (String × String))
  | .obj fields => fields.mapM fun kv => (deserializeString kv.snd).map fun v => (kv.fst, v)
  | _ => none

/-- Deserializer for `HashMap<String, Value>` fields. -/
def deserializeJsonMap : Json → Option (List (String × Json))
  | .obj fields => some fields
  | _ => none

/-- Types of feed data (`Spec` in `src/data/mod.rs`): GTFS, GTFS-RT, GBFS
or MDS. -/
inductive Spec where
  | GTFS : Spec
  | GTFSRealtime : Spec
  | GBFS : Spec
  | MDS : Spec
deriving DecidableEq

/-- Serde serialization of `Spec` under
`#[serde(rename_all = "lowercase")]` with `GTFSRealtime` renamed
`"gtfs-rt"`. -/
def Spec.serialize : Spec → Json
  | .GTFS => .str "gtfs"
  | .GTFSRealtime => .str "gtfs-rt"
  | .GBFS => .str "gbfs"
  | .MDS => .str "mds"

/-- Serde deserialization of `Spec`: the four wire names, anything else is
an error. -/
def Spec.deserialize : Json → Option Spec
  | .str "gtfs" => some .GTFS
  | .str "gtfs-rt" => some .GTFSRealtime
  | .str "gbfs" => some .GBFS
  | .str "mds" => some .MDS
  | _ => none

/-- The partial projection `partial::FeedVersion` from
`src/data/partial.rs`. -/
structure PFeedVersion where
  id : Option Nat
  sha1 : String
  fetched_at : String
  url : Option String
  earliest_calendar_date : Option String
  latest_calendar_date : Option String

/-- The partial projection `partial::Feed` from `src/data/partial.rs`. -/
structure PFeed where
  name : Option String
  onestop_id : String
  spec : Spec

/-- The partial projection `partial::Operator` from
`src/data/partial.rs`. -/
structure POperator where
  onestop_id : String
  name : String
  short_name : Option String
  website : Option String
  tags : Option (List (String × String))

/-- The partial projection `partial::Route` from `src/data/partial.rs`. -/
structure PRoute where
  id : Nat
  route_id : String
  route_long_name : Option String
  route_short_name : Option String

/-- Place associated with an agency (`Place` in `src/data/mod.rs`). -/
structure Place where
  city_name : Option String
  adm1_name : Option String
  adm0_name : Option String

/-- The partial projection `partial::Agency` from `src/data/partial.rs`. -/
structure PAgency where
  id : Nat
  agency_id : Option String
  agency_name : Option String
  places : Option (List Place)

/-- URLs associated with a feed (`Urls` in `src/data/mod.rs`). -/
structure Urls where
  static_current : String
  static_historic : List String
  static_planned : String
  realtime_vehicle_positions : String
  realtime_trip_updates : String
  realtime_alerts : String

/-- Licensing information for feeds (`License` in `src/data/mod.rs`). -/
structure License where
  spdx_identifier : Option String
  url : Option String
  use_without_attribution : Option String
  create_derived_product : Option String
  redistribution_allowed : Option String
  commercial_use_allowed : Option String
  share_alike_optional : Option String
  attribution_text : Option String
  attribution_instructions : Option String

/-- Type of authorization for a feed (`AuthorizationType` in
`src/data/mod.rs`), wire names under `rename_all = "snake_case"` with the
first variant renamed to the empty string. -/
inductive AuthorizationType where
  | None : AuthorizationType
  | Header : AuthorizationType
  | BasicAuth : AuthorizationType
  | QueryParam : AuthorizationType
  | PathSegment : AuthorizationType

/-- Details on how to access a protected resource (`Authorization` in
`src/data/mod.rs`).  The `auth_type` field is wire-named `"type"`. -/
structure Authorization where
  auth_type : Option AuthorizationType
  param_name : Option String
  info_url : String

/-- Geometry in GeoJSON format (`Geometry<C>` in `src/data/mod.rs`).  The
`type_` field is wire-named `"type"`. -/
structure Geometry (C : Type) where
  type_ : String
  coordinates : C

/-- Details on the state of a feed (`FeedState` in `src/data/mod.rs`). -/
structure FeedState where
  last_fetch_error : Option String
  last_fetched_at : Option String
  last_successful_fetch_at : Option String
  feed_version : PFeedVersion

/-- A feed (`Feed` in `src/data/mod.rs`): the full projection, with its
required and optional fields exactly as declared in the source. -/
structure Feed where
  id : Nat
  onestop_id : String
  name : Option String
  spec : Spec
  feed_namespace_id : Option String
  associated_feeds : Option (List String)
  languages : Option (List String)
  urls : Urls
  license : License
  authorization : Authorization
  geometry : Option (Geometry (List (List (Float × Float))))
  feed_state : FeedState
  feed_versions : List PFeedVersion

/-- Metadata of archive files (`FileMetadata` in `src/data/mod.rs`). -/
structure FileMetadata where
  name : String
  sha1 : String
  header : String
  rows : Nat
  csv_like : Bool
  size : Nat

/-- GTFS `calendar` and `calendar_dates` entities combined (`Calendar` in
`src/data/mod.rs`). -/
structure Calendar where
  service_id : Option String
  start_date : String
  end_date : String
  added_dates : Option (List String)
  removed_dates : Option (List String)
  generated : Option Bool
  monday : Nat
  tuesday : Nat
  wednesday : Nat
  thursday : Nat
  friday : Nat
  saturday : Nat
  sunday : Nat

/-- A feed version (`FeedVersion` in `src/data/mod.rs`). -/
structure FeedVersion where
  id : Option Nat
  sha1 : Option String
  fetched_at : String
  url : Option String
  earliest_calendar_date : Option String
  latest_calendar_date : Option String
  files : Option (List FileMetadata)
  service_levels : List Calendar
  feed : PFeed

/-- An agency (`Agency` in `src/data/mod.rs`). -/
structure Agency where
  id : Nat
  onestop_id : Option String
  agency_id : Option String
  agency_name : Option String
  agency_url : Option String
  agency_timezone : Option String
  agency_lang : Option String
  agency_phone : Option String
  agency_fare_url : Option String
  agency_email : Option String
  geometry : Option (Geometry (List (List (Float × Float))))
  operator : Option POperator
  places : Option (List Place)
  feed_version : Option PFeedVersion
  routes : Option (List PRoute)

/-- An operator (`Operator` in `src/data/mod.rs`). -/
structure Operator where
  id : Nat
  onestop_id : String
  name : Option String
  short_name : Option String
  website : Option String
  tags : Option (List (String × String))
  agencies : Option (List PAgency)

/-- GTFS level (`GTFSLevel` in `src/data/mod.rs`). -/
structure GTFSLevel where
  level_id : String
  level_name : String
  level_index : String

/-- A stop (`Stop` in `src/data/mod.rs`). -/
structure Stop where
  id : Nat
  onestop_id : Option String
  stop_id : Option String
  stop_name : Option String
  stop_desc : Option String
  stop_url : Option String
  stop_timezone : Option String
  stop_code : Option String
  zone_id : Option String
  wheelchair_boarding : Option Nat
  location_type : Option Nat
  feed_version : List (String × Json)
  level : Option GTFSLevel
  route_stops : List (List (String × Json))
  geometry : Geometry (Float × Float)

/-- A route (`Route` in `src/data/mod.rs`). -/
structure Route where
  id : Nat
  onestop_id : String
  route_id : Option String
  route_type : Option Nat
  route_short_name : Option String
  route_long_name : Option String
  route_color : String
  route_text_color : String
  route_sort_order : Nat
  agency : PAgency
  feed_version : Option PFeedVersion
  route_stops : Option (List Stop)

/-- Modified GTFS `stop_time` entities (`StopTime` in
`src/data/mod.rs`). -/
structure StopTime where
  arrival_time : Nat
  departure_time : Nat
  stop_sequence : Nat
  stop_headsign : String
  pickup_type : Nat
  drop_off_type : Nat
  timepoint : Nat
  shape_dist_traveled : Float
  interpolated : Nat

/-- Shape for a trip (`Shape` in `src/data/mod.rs`). -/
structure Shape where
  shape_id : String
  generated : Bool

/-- A single GTFS `frequencies` entity (`Frequency` in
`src/data/mod.rs`). -/
structure Frequency where
  start_time : Nat
  end_time : Nat
  headway_secs : Nat
  exact_times : Nat

/-- A trip (`Trip` in `src/data/mod.rs`). -/
structure Trip where
  id : Nat
  trip_id : Option String
  trip_headsign : Option String
  trip_short_name : Option String
  direction_id : Option Nat
  block_id : Option String
  wheelchair_accessible : Option Nat
  bikes_allowed : Option Nat
  stop_pattern_id : Option Nat
  stop_times : Option (List StopTime)
  shape : Shape
  calendar : Calendar
  frequencies : List Frequency
  route : Option PRoute
  feed_version : PFeedVersion

/-- The trait `TransitlandObject<P>` from `src/api.rs`: each queryable type
maps a parent value to its collection-query path and its by-identifier
path. -/
class TransitlandObject (P : Type) (T : Type) where
  query_path : P → String
  by_id_path : P → String

/-- Instance generated by `impl_object!(Feed, "feeds")`. -/
instance : TransitlandObject Unit Feed where
  query_path _ := "feeds"
  by_id_path _ := "feeds"

/-- Instance generated by `impl_object!(FeedVersion, "feed_versions")`. -/
instance : TransitlandObject Unit FeedVersion where
  query_path _ := "feed_versions"
  by_id_path _ := "feed_versions"

/-- Instance generated by `impl_object!(Agency, "agencies")`. -/
instance : TransitlandObject Unit Agency where
  query_path _ := "agencies"
  by_id_path _ := "agencies"

/-- Instance generated by `impl_object!(Operator, "operators")`. -/
instance : TransitlandObject Unit Operator where
  query_path _ := "operators"
  by_id_path _ := "operators"

/-- Instance generated by `impl_object!(Route, "routes")`. -/
instance : TransitlandObject Unit Route where
  query_path _ := "routes"
  by_id_path _ := "routes"

/-- Instance generated by `impl_object!(Stop, "stops")`. -/
instance : TransitlandObject Unit Stop where
  query_path _ := "stops"
  by_id_path _ := "stops"

/-- The nested instance `impl TransitlandObject<u64> for Trip`: both paths
are `format!("routes/{}/trips", route_key)`. -/
instance : TransitlandObject Nat Trip where
  query_path routeKey := "routes/" ++ toString routeKey ++ "/trips"
  by_id_path routeKey := "routes/" ++ toString routeKey ++ "/trips"

/-- Deserializer for `Urls` (all fields required). -/
def deserializeUrls : Json → Option Urls
  | .obj fs =>
    (reqField deserializeString fs "static_current").bind fun sc =>
    (reqField (deserializeVec deserializeString) fs "static_historic").bind fun sh =>
    (reqField deserializeString fs "static_planned").bind fun sp =>
    (reqField deserializeString fs "realtime_vehicle_positions").bind fun rvp =>
    (reqField deserializeString fs "realtime_trip_updates").bind fun rtu =>
    (reqField deserializeString fs "realtime_alerts").bind fun ra =>
    some { static_current := sc, static_historic := sh, static_planned := sp,
           realtime_vehicle_positions := rvp, realtime_trip_updates := rtu,
           realtime_alerts := ra }
  | _ => none

/-- Deserializer for `License` (all fields optional). -/
def deserializeLicense : Json → Option License
  | .obj fs =>
    (optField deserializeString fs "spdx_identifier").bind fun spdx =>
    (optField deserializeString fs "url").bind fun url =>
    (optField deserializeString fs "use_without_attribution").bind fun uwa =>
    (optField deserializeString fs "create_derived_product").bind fun cdp =>
    (optField deserializeString fs "redistribution_allowed").bind fun ra =>
    (optField deserializeString fs "commercial_use_allowed").bind fun cua =>
    (optField deserializeString fs "share_alike_optional").bind fun sao =>
    (optField deserializeString fs "attribution_text").bind fun at_ =>
    (optField deserializeString fs "attribution_instructions").bind fun ai =>
    some { spdx_identifier := spdx, url := url, use_without_attribution := uwa,
           create_derived_product := cdp, redistribution_allowed := ra,
           commercial_use_allowed := cua, share_alike_optional := sao,
           attribution_text := at_, attribution_instructions := ai }
  | _ => none

/-- Deserializer for `AuthorizationType` (snake_case names, first variant
renamed to the empty string). -/
def deserializeAuthorizationType : Json → Option AuthorizationType
  | .str "" => some .None
  | .str "header" => some .Header
  | .str "basic_auth" => some .BasicAuth
  | .str "query_param" => some .QueryParam
  | .str "path_segment" => some .PathSegment
  | _ => none

/-- Deserializer for `Authorization` (`auth_type` is wire-named
`"type"`). -/
def deserializeAuthorization : Json → Option Authorization
  | .obj fs =>
    (optField deserializeAuthorizationType fs "type").bind fun at_ =>
    (optField deserializeString fs "param_name").bind fun pn =>
    (reqField deserializeString fs "info_url").bind fun iu =>
    some { auth_type := at_, param_name := pn, info_url := iu }
  | _ => none

/-- Deserializer for `Geometry<C>`, generic in the coordinate
deserializer; `type_` is wire-named `"type"`. -/
def deserializeGeometry {C : Type} (dC : Json → Option C) : Json → Option (Geometry C)
  | .obj fs =>
    (reqField deserializeString fs "type").bind fun t =>
    (reqField dC fs "coordinates").bind fun coords =>
    some { type_ := t, coordinates := coords }
  | _ => none

/-- Deserializer for `partial::FeedVersion`. -/
def deserializePFeedVersion : Json → Option PFeedVersion
  | .obj fs =>
    (optField deserializeU64 fs "id").bind fun id =>
    (reqField deserializeString fs "sha1").bind fun sha1 =>
    (reqField deserializeString fs "fetched_at").bind fun fa =>
    (optField deserializeString fs "url").bind fun url =>
    (optField deserializeString fs "earliest_calendar_date").bind fun ecd =>
    (optField deserializeString fs "latest_calendar_date").bind fun lcd =>
    some { id := id, sha1 := sha1, fetched_at := fa, url := url,
           earliest_calendar_date := ecd, latest_calendar_date := lcd }
  | _ => none

/-- Deserializer for `FeedState`. -/
def deserializeFeedState : Json → Option FeedState
  | .obj fs =>
    (optField deserializeString fs "last_fetch_error").bind fun lfe =>
    (optField deserializeString fs "last_fetched_at").bind fun lfa =>
    (optField deserializeString fs "last_successful_fetch_at").bind fun lsfa =>
    (reqField deserializePFeedVersion fs "feed_version").bind fun fv =>
    some { last_fetch_error := lfe, last_fetched_at := lfa,
           last_successful_fetch_at := lsfa, feed_version := fv }
  | _ => none

/-- Deserializer for `Feed`, field for field as declared in
`src/data/mod.rs`: `id`, `onestop_id`, `spec`, `urls`, `license`,
`authorization`, `feed_state` and `feed_versions` are required, the rest
are `Option` fields. -/
def deserializeFeed : Json → Option Feed
  | .obj fs =>
    (reqField deserializeU64 fs "id").bind fun id =>
    (reqField deserializeString fs "onestop_id").bind fun osid =>
    (optField deserializeString fs "name").bind fun name =>
    (reqField Spec.deserialize fs "spec").bind fun spec =>
    (optField deserializeString fs "feed_namespace_id").bind fun fnsid =>
    (optField (deserializeVec deserializeString) fs "associated_feeds").bind fun af =>
    (optField (deserializeVec deserializeString) fs "languages").bind fun langs =>
    (reqField deserializeUrls fs "urls").bind fun urls =>
    (reqField deserializeLicense fs "license").bind fun license =>
    (reqField deserializeAuthorization fs "authorization").bind fun auth =>
    (optField (deserializeGeometry (deserializeVec (deserializeVec
        (deserializePair deserializeF64 deserializeF64)))) fs "geometry").bind fun geom =>
    (reqField deserializeFeedState fs "feed_state").bind fun fst_ =>
    (reqField (deserializeVec deserializePFeedVersion) fs "feed_versions").bind fun fvs =>
    some { id := id, onestop_id := osid, name := name, spec := spec,
           feed_namespace_id := fnsid, associated_feeds := af, languages := langs,
           urls := urls, license := license, authorization := auth,
           geometry := geom, feed_state := fst_, feed_versions := fvs }
  | _ => none

/-- The production endpoint, `TRANSITLAND_BASE_URL` in `src/api.rs`. -/
def TRANSITLAND_BASE_URL : String := "https://transit.land/api/v2/rest"

/-- Pagination metadata (`Meta` in `src/api.rs`): both fields required. -/
structure Meta where
  after : Nat
  next : String
deriving DecidableEq

/-- Deserializer for `Meta`. -/
def deserializeMeta : Json → Option Meta
  | .obj fs =>
    (reqField deserializeU64 fs "after").bind fun a =>
    (reqField deserializeString fs "next").bind fun n =>
    some { after := a, next := n }
  | _ => none

/-- The `Request` builder from `src/api.rs`: spec filter, pagination
cursor, page-size limit and base URL. -/
structure Request where
  spec : Spec
  after : Option Nat
  limit : Nat
  base_url : String
deriving DecidableEq

/-- The value built by `Request::new()`. -/
def Request.new : Request :=
  { spec := .GTFS, after := none, limit := 20, base_url := TRANSITLAND_BASE_URL }

/-- Builder setter `with_spec`. -/
def Request.with_spec (r : Request) (s : Spec) : Request := { r with spec := s }

/-- Builder setter `with_limit` (no validation, any value accepted). -/
def Request.with_limit (r : Request) (n : Nat) : Request := { r with limit := n }

/-- Builder setter `with_base_url`. -/
def Request.with_base_url (r : Request) (u : String) : Request := { r with base_url := u }

/-- An outbound HTTP GET request: the URL and the query parameters handed
to the HTTP client. -/
structure HttpRequest where
  url : String
  query : List (String × String)
deriving DecidableEq

/-- The two failure kinds a call can surface: a transport error from the
HTTP client or a deserialization error from the body. -/
inductive ApiError where
  | transport (msg : String) : ApiError
  | deserialization : ApiError
deriving DecidableEq

/-- Outcome of a Rust call, including divergence by panic (used to model
`unimplemented!()`). -/
inductive RustOutcome (ε α : Type) where
  | ok (a : α) : RustOutcome ε α
  | err (e : ε) : RustOutcome ε α
  | panicked (msg : String) : RustOutcome ε α

/-- The HTTP request built by `search_with_parent`: the source formats the
URL as `format!("{}/{}", TRANSITLAND_BASE_URL, T::query_path(parent))` —
note the constant, not `self.base_url` — with query parameters `apikey`,
`search` and `limit`. -/
def Request.searchRequest (r : Request) (queryPath : String)
    (query apiKey : String) : HttpRequest :=
  { url := TRANSITLAND_BASE_URL ++ "/" ++ queryPath,
    query := [("apikey", apiKey), ("search", query), ("limit", toString r.limit)] }

/-- The HTTP request built by `get_with_parent`: the source formats the URL
as `format!("{}/{}/{}", TRANSITLAND_BASE_URL, T::by_id_path(parent), key)`
— again the constant, not `self.base_url` — with query parameters `apikey`
and `limit`. -/
def Request.getRequest (r : Request) (byIdPath : String)
    (key apiKey : String) : HttpRequest :=
  { url := TRANSITLAND_BASE_URL ++ "/" ++ byIdPath ++ "/" ++ key,
    query := [("apikey", apiKey), ("limit", toString r.limit)] }

/-- Serde-level content of a `SearchResponse<T>` body: the optional `meta`
field, and every remaining key deserialized as `Vec<T>`, in body order.
This is what the flattened map receives before `HashMap` stores it. -/
def parseSearchBody {T : Type} (dT : Json → Option T) :
    Json → Option (Option Meta × List (String × List T))
  | .obj fs =>
    (optField deserializeMeta fs "meta").bind fun meta =>
    ((fs.filter fun kv => kv.fst ≠ "meta").mapM fun kv =>
        (deserializeVec dT kv.snd).map fun vs => (kv.fst, vs)).bind fun rest =>
    some (meta, rest)
  | _ => none

/-- A response from a Transitland API request (`SearchResponse<T>` in
`src/api.rs`): the optional pagination metadata and the flattened
`HashMap<String, Vec<T>>`, the latter modelled as its entry list in the
map's iteration order. -/
structure SearchResponse (T : Type) where
  meta : Option Meta
  rest : List (String × List T)

/-- Deserializing a body into a `SearchResponse`, as a relation: the serde
content must parse, and the envelope's entry list is some permutation of
the parsed entries, because Rust's `std::HashMap` does not specify an
iteration order. -/
def SearchDeserializesTo {T : Type} (dT : Json → Option T) (body : Json)
    (resp : SearchResponse T) : Prop :=
  ∃ rest, parseSearchBody dT body = some (resp.meta, rest) ∧ resp.rest.Perm rest

/-- The `values()` accessor: `self.rest.values().last()`, the last value in
the map's iteration order. -/
def SearchResponse.values {T : Type} (r : SearchResponse T) : Option (List T) :=
  (r.rest.map Prod.snd).getLast?

/-- The `search_next()` operation: the source body is `unimplemented!()`,
which panics with the message "not implemented". -/
def SearchResponse.search_next {T : Type} (_ : SearchResponse T) :
    RustOutcome ApiError (SearchResponse T) :=
  .panicked "not implemented"

/-- The pure part of `Request::search_with_parent`: build the request, hand
it to the transport, then deserialize the body as a `SearchResponse<T>`.
A transport failure or a body that does not parse aborts the call.  The
result is the serde-level envelope content (see `SearchDeserializesTo` for
the envelope value itself). -/
def Request.search_with_parent {P T : Type} [TransitlandObject P T] (r : Request)
    (parent : P) (dT : Json → Option T) (query apiKey : String)
    (send : HttpRequest → Except String Json) :
    Except ApiError (Option Meta × List (String × List T)) :=
  match send (r.searchRequest (TransitlandObject.query_path (T := T) parent) query apiKey) with
  | .error e => .error (.transport e)
  | .ok body =>
    match parseSearchBody dT body with
    | some content => .ok content
    | none => .error .deserialization

/-- The pure part of `Request::get_with_parent`: build the request, hand it
to the transport, then deserialize the whole body as `Option<T>` (serde:
`null` is `None`, anything else must deserialize as `T`). -/
def Request.get_with_parent {P T : Type} [TransitlandObject P T] (r : Request)
    (parent : P) (dT : Json → Option T) (key apiKey : String)
    (send : HttpRequest → Except String Json) : Except ApiError (Option T) :=
  match send (r.getRequest (TransitlandObject.by_id_path (T := T) parent) key apiKey) with
  | .error e => .error (.transport e)
  | .ok body =>
    match deserializeOption dT body with
    | some v => .ok v
    | none => .error .deserialization

/-- `Request::search`: `search_with_parent` at parent `()`. -/
def Request.search {T : Type} [TransitlandObject Unit T] (r : Request)
    (dT : Json → Option T) (query apiKey : String)
    (send : HttpRequest → Except String Json) :
    Except ApiError (Option Meta × List (String × List T)) :=
  r.search_with_parent () dT query apiKey send

/-- `Request::get`: `get_with_parent` at parent `()`. -/
def Request.get {T : Type} [TransitlandObject Unit T] (r : Request)
    (dT : Json → Option T) (key apiKey : String)
    (send : HttpRequest → Except String Json) : Except ApiError (Option T) :=
  r.get_with_parent () dT key apiKey send

/-- A concrete `Feed` value, used to instantiate universally quantified
theorems at explicit inputs. -/
def sampleFeed : Feed :=
  { id := 1, onestop_id := "f-sample", name := none, spec := .GTFS,
    feed_namespace_id := none, associated_feeds := none, languages := none,
    urls := { static_current := "", static_historic := [], static_planned := "",
              realtime_vehicle_positions := "", realtime_trip_updates := "",
              realtime_alerts := "" },
    license := { spdx_identifier := none, url := none,
                 use_without_attribution := none, create_derived_product := none,
                 redistribution_allowed := none, commercial_use_allowed := none,
                 share_alike_optional := none, attribution_text := none,
                 attribution_instructions := none },
    authorization := { auth_type := none, param_name := none, info_url := "" },
    geometry := none,
    feed_state := { last_fetch_error := none, last_fetched_at := none,
                    last_successful_fetch_at := none,
                    feed_version := { id := none, sha1 := "", fetched_at := "",
                                      url := none, earliest_calendar_date := none,
                                      latest_calendar_date := none } },
    feed_versions := [] }

/-- Helper: a key that is not among an object's field names looks up to
nothing. -/
theorem lookupField_not_mem {fs : List (String × Json)} {name : String}
    (h : name ∉ fs.map Prod.fst) : lookupField fs name = none := by
  unfold lookupField
  have hfind : fs.find? (fun kv => kv.fst == name) = none := by
    apply List.find?_eq_none.mpr
    intro kv hkv
    simp only [beq_iff_eq]
    intro hEq
    exact h (hEq ▸ List.mem_map_of_mem Prod.fst hkv)
  rw [hfind]
  rfl

/-- Helper: on a non-null value, the `Option<T>` deserializer defers to the
inner deserializer. -/
theorem deserializeOption_ne_null {α : Type} (d : Json → Option α) (j : Json)
    (h : j ≠ .null) : deserializeOption d j = (d j).map some := by
  cases j with
  | null => exact absurd rfl h
  | bool b => rfl
  | num n => rfl
  | str s => rfl
  | arr elems => rfl
  | obj fields => rfl

/-- Helper: mapping `Prod.snd` over a nonempty list and taking the last
element yields the second component of one of the list's members. -/
theorem map_snd_getLast {α β : Type} (l : List (α × β)) (h : l ≠ []) :
    ∃ kv, kv ∈ l ∧ (l.map Prod.snd).getLast? = some kv.snd := by
  induction l with
  | nil => exact absurd rfl h
  | cons a as ih =>
    cases as with
    | nil => exact ⟨a, List.mem_cons_self a [], rfl⟩
    | cons b bs =>
      obtain ⟨kv, hmem, heq⟩ := ih (by simp)
      refine ⟨kv, List.mem_cons_of_mem a hmem, ?_⟩
      simpa [List.getLast?_cons_cons] using heq

/-- Claim C4: for every top-level domain type implementing the
resource-path trait with parent type `()` — Feed, FeedVersion, Agency,
Operator, Route, Stop — `query_path(())` returns the type's fixed
collection noun and `by_id_path(())` returns the same string. -/
theorem top_level_collection_paths :
    TransitlandObject.query_path (P := Unit) (T := Feed) () = "feeds" ∧
    TransitlandObject.by_id_path (P := Unit) (T := Feed) () = "feeds" ∧
    TransitlandObject.query_path (P := Unit) (T := FeedVersion) () = "feed_versions" ∧
    TransitlandObject.by_id_path (P := Unit) (T := FeedVersion) () = "feed_versions" ∧
    TransitlandObject.query_path (P := Unit) (T := Agency) () = "agencies" ∧
    TransitlandObject.by_id_path (P := Unit) (T := Agency) () = "agencies" ∧
    TransitlandObject.query_path (P := Unit) (T := Operator) () = "operators" ∧
    TransitlandObject.by_id_path (P := Unit) (T := Operator) () = "operators" ∧
    TransitlandObject.query_path (P := Unit) (T := Route) () = "routes" ∧
    TransitlandObject.by_id_path (P := Unit) (T := Route) () = "routes" ∧
    TransitlandObject.query_path (P := Unit) (T := Stop) () = "stops" ∧
    TransitlandObject.by_id_path (P := Unit) (T := Stop) () = "stops" :=
  ⟨rfl, rfl, rfl, rfl, rfl, rfl, rfl, rfl, rfl, rfl, rfl, rfl⟩

/-- Claim C5: for the nested Trip type with parent type `u64`, both
`query_path(route_id)` and `by_id_path(route_id)` equal
`"routes/{route_id}/trips"` for every route id. -/
theorem trip_nested_paths (routeKey : Nat) :
    TransitlandObject.query_path (P := Nat) (T := Trip) routeKey
      = "routes/" ++ toString routeKey ++ "/trips" ∧
    TransitlandObject.by_id_path (P := Nat) (T := Trip) routeKey
      = "routes/" ++ toString routeKey ++ "/trips" :=
  ⟨rfl, rfl⟩

/-- Claim C7: serializing then deserializing any `Spec` variant yields the
same variant, under the wire encodings GTFS ↔ "gtfs",
GTFSRealtime ↔ "gtfs-rt", GBFS ↔ "gbfs", MDS ↔ "mds". -/
theorem spec_serde_roundtrip :
    (∀ s : Spec, Spec.deserialize (Spec.serialize s) = some s) ∧
    Spec.serialize .GTFS = Json.str "gtfs" ∧
    Spec.serialize .GTFSRealtime = Json.str "gtfs-rt" ∧
    Spec.serialize .GBFS = Json.str "gbfs" ∧
    Spec.serialize .MDS = Json.str "mds" ∧
    Spec.deserialize (Json.str "gtfs") = some .GTFS ∧
    Spec.deserialize (Json.str "gtfs-rt") = some .GTFSRealtime ∧
    Spec.deserialize (Json.str "gbfs") = some .GBFS ∧
    Spec.deserialize (Json.str "mds") = some .MDS := by
  refine ⟨fun s => ?_, rfl, rfl, rfl, rfl, rfl, rfl, rfl, rfl⟩
  cases s <;> rfl

/-- Claim C8: each builder setter returns a builder equal to the original
except for the named field, which is set to the argument; `with_limit`
accepts every value with no validation. -/
theorem builder_setters_frame (r : Request) (s : Spec) (n : Nat) (u : String) :
    (r.with_spec s).spec = s ∧ (r.with_spec s).after = r.after ∧
    (r.with_spec s).limit = r.limit ∧ (r.with_spec s).base_url = r.base_url ∧
    (r.with_limit n).limit = n ∧ (r.with_limit n).spec = r.spec ∧
    (r.with_limit n).after = r.after ∧ (r.with_limit n).base_url = r.base_url ∧
    (r.with_base_url u).base_url = u ∧ (r.with_base_url u).spec = r.spec ∧
    (r.with_base_url u).after = r.after ∧ (r.with_base_url u).limit = r.limit :=
  ⟨rfl, rfl, rfl, rfl, rfl, rfl, rfl, rfl, rfl, rfl, rfl, rfl⟩

/-- Claim C2 (counterexample): on a concrete envelope whose `meta` is
present, `search_next()` panics (the source body is `unimplemented!()`);
it does not return an "unsupported operation" error value to the caller as
the claim states. -/
theorem search_next_panics_counterexample :
    SearchResponse.search_next (T := Nat)
      { meta := some { after := 5, next := "https://transit.land/api/v2/rest/routes?after=5" },
        rest := [("routes", [1, 2])] }
      = RustOutcome.panicked "not implemented" := rfl

/-- Claim C2 (amended): calling `search_next()` on any envelope panics via
`unimplemented!()` with the message "not implemented"; it never returns a
result or an error value. -/
theorem search_next_always_panics {T : Type} (r : SearchResponse T) :
    r.search_next = RustOutcome.panicked "not implemented" := rfl

/-- Claim C3 (code bug): `with_base_url` stores the override in the
builder, but `search_with_parent` and `get_with_parent` format their URLs
from the `TRANSITLAND_BASE_URL` constant, so the issued URL ignores the
configured base URL. -/
theorem base_url_ignored_by_requests :
    (Request.new.with_base_url "http://localhost:8080").base_url = "http://localhost:8080" ∧
    ((Request.new.with_base_url "http://localhost:8080").searchRequest
        (TransitlandObject.query_path (P := Unit) (T := Feed) ()) "caltrain" "key").url
      = "https://transit.land/api/v2/rest/feeds" ∧
    ((Request.new.with_base_url "http://localhost:8080").getRequest
        (TransitlandObject.by_id_path (P := Unit) (T := Feed) ()) "f-9q9-caltrain" "key").url
      = "https://transit.land/api/v2/rest/feeds/f-9q9-caltrain" :=
  ⟨rfl, rfl, rfl⟩

/-- Helper: when the transport returns a body, `get_with_parent` reduces to
dispatching on the `Option<T>` deserialization of that body. -/
theorem get_with_parent_ok_body {P T : Type} [TransitlandObject P T]
    (r : Request) (parent : P) (dT : Json → Option T) (key apiKey : String)
    (send : HttpRequest → Except String Json) (body : Json)
    (hs : send (r.getRequest (TransitlandObject.by_id_path (T := T) parent) key apiKey)
        = .ok body) :
    r.get_with_parent parent dT key apiKey send
      = match deserializeOption dT body with
        | some v => .ok v
        | none => .error .deserialization := by
  unfold Request.get_with_parent
  rw [hs]

/-- Claim C9: a response body that omits the required `onestop_id` field of
`Feed` never deserializes — no default is substituted — and a `get` call
receiving such a body fails with a deserialization error. -/
theorem feed_missing_required_field (fs : List (String × Json))
    (h : "onestop_id" ∉ fs.map Prod.fst) :
    deserializeFeed (Json.obj fs) = none ∧
    ∀ (r : Request) (key apiKey : String),
      r.get_with_parent () deserializeFeed key apiKey
        (fun _ => .ok (Json.obj fs)) = .error .deserialization := by
  have hosid : reqField deserializeString fs "onestop_id" = none := by
    unfold reqField
    rw [lookupField_not_mem h]
    rfl
  have hfeed : deserializeFeed (Json.obj fs) = none := by
    simp only [deserializeFeed]
    cases hid : reqField deserializeU64 fs "id" with
    | none => simp only [Option.none_bind]
    | some v => simp only [Option.some_bind, hosid, Option.none_bind]
  refine ⟨hfeed, ?_⟩
  intro r key apiKey
  rw [get_with_parent_ok_body r () deserializeFeed key apiKey
      (fun _ => .ok (Json.obj fs)) (Json.obj fs) rfl,
    deserializeOption_ne_null deserializeFeed (Json.obj fs) (fun hEq => Json.noConfusion hEq),
    hfeed]
  rfl

/-- Witness for C9 at a concrete body: an object carrying only `id`. -/
theorem feed_missing_required_field_witness :
    ("onestop_id" ∉ ([("id", Json.num 1)].map Prod.fst)) ∧
    deserializeFeed (Json.obj [("id", Json.num 1)]) = none ∧
    Request.new.get_with_parent () deserializeFeed "f-x" "key"
      (fun _ => .ok (Json.obj [("id", Json.num 1)])) = .error .deserialization := by
  have h : "onestop_id" ∉ ([("id", Json.num 1)].map Prod.fst) := by decide
  obtain ⟨h1, h2⟩ := feed_missing_required_field [("id", Json.num 1)] h
  exact ⟨h, h1, h2 Request.new "f-x" "key"⟩

/-- Claim C1 (counterexample): a body whose envelope's sole key carries an
empty array is a deserialization error for `get_with_parent`, not an
absent result, because the source deserializes the whole body as
`Option<T>` and the object does not match `Feed`. -/
theorem get_empty_array_counterexample :
    Request.new.get_with_parent () deserializeFeed "f-key" "apikey"
      (fun _ => .ok (Json.obj [("feeds", Json.arr [])])) = .error .deserialization ∧
    Request.new.get_with_parent () deserializeFeed "f-key" "apikey"
      (fun _ => .ok (Json.obj [("feeds", Json.arr [])])) ≠ .ok none := by
  have h : Request.new.get_with_parent () deserializeFeed "f-key" "apikey"
      (fun _ => .ok (Json.obj [("feeds", Json.arr [])])) = .error .deserialization := rfl
  refine ⟨h, ?_⟩
  rw [h]
  intro hEq
  exact Except.noConfusion hEq

/-- Claim C1 (amended): `get_with_parent` (and `get` at parent `()`)
propagates a transport failure as a transport error; returns `none` when
the body is JSON `null`; returns `some item` when the body itself
deserializes as the requested type; and fails with a deserialization error
on every other body — including an envelope whose sole key holds an empty
array. -/
theorem get_with_parent_characterization {P T : Type} [TransitlandObject P T]
    (r : Request) (parent : P) (dT : Json → Option T) (key apiKey : String)
    (send : HttpRequest → Except String Json) :
    (∀ msg, send (r.getRequest (TransitlandObject.by_id_path (T := T) parent) key apiKey)
        = .error msg →
      r.get_with_parent parent dT key apiKey send = .error (.transport msg)) ∧
    (send (r.getRequest (TransitlandObject.by_id_path (T := T) parent) key apiKey)
        = .ok Json.null →
      r.get_with_parent parent dT key apiKey send = .ok none) ∧
    (∀ body t, send (r.getRequest (TransitlandObject.by_id_path (T := T) parent) key apiKey)
        = .ok body → body ≠ Json.null → dT body = some t →
      r.get_with_parent parent dT key apiKey send = .ok (some t)) ∧
    (∀ body, send (r.getRequest (TransitlandObject.by_id_path (T := T) parent) key apiKey)
        = .ok body → body ≠ Json.null → dT body = none →
      r.get_with_parent parent dT key apiKey send = .error .deserialization) := by
  refine ⟨?_, ?_, ?_, ?_⟩
  · intro msg hs
    unfold Request.get_with_parent
    rw [hs]
  · intro hs
    rw [get_with_parent_ok_body r parent dT key apiKey send Json.null hs]
    rfl
  · intro body t hs hnull hd
    rw [get_with_parent_ok_body r parent dT key apiKey send body hs,
      deserializeOption_ne_null dT body hnull, hd]
    rfl
  · intro body hs hnull hd
    rw [get_with_parent_ok_body r parent dT key apiKey send body hs,
      deserializeOption_ne_null dT body hnull, hd]
    rfl

/-- Witness for the C1 characterization: all four cases at concrete
inputs. -/
theorem get_with_parent_characterization_witness :
    Request.new.get_with_parent () (fun _ => (none : Option Feed)) "k" "a"
      (fun _ => .error "connection refused") = .error (.transport "connection refused") ∧
    Request.new.get_with_parent () (fun _ => (none : Option Feed)) "k" "a"
      (fun _ => .ok Json.null) = .ok none ∧
    Request.new.get_with_parent () (fun _ => some sampleFeed) "k" "a"
      (fun _ => .ok (Json.str "body")) = .ok (some sampleFeed) ∧
    Request.new.get_with_parent () (fun _ => (none : Option Feed)) "k" "a"
      (fun _ => .ok (Json.str "body")) = .error .deserialization := by
  refine ⟨?_, ?_, ?_, ?_⟩
  · exact (get_with_parent_characterization Request.new () (fun _ => (none : Option Feed))
      "k" "a" (fun _ => .error "connection refused")).1 "connection refused" rfl
  · exact (get_with_parent_characterization Request.new () (fun _ => (none : Option Feed))
      "k" "a" (fun _ => .ok Json.null)).2.1 rfl
  · exact (get_with_parent_characterization Request.new () (fun _ => some sampleFeed)
      "k" "a" (fun _ => .ok (Json.str "body"))).2.2.1 (Json.str "body") sampleFeed rfl
      (fun hEq => Json.noConfusion hEq) rfl
  · exact (get_with_parent_characterization Request.new () (fun _ => (none : Option Feed))
      "k" "a" (fun _ => .ok (Json.str "body"))).2.2.2 (Json.str "body") rfl
      (fun hEq => Json.noConfusion hEq) rfl

/-- Claim C6 (amended): for any deserialized envelope, `meta` is the parsed
meta field; when the non-meta mapping has exactly one populated key,
`values()` returns exactly the list deserialized from that key's array (in
original order, since arrays parse element by element); when at least one
key is populated, `values()` returns the deserialized list of one of the
populated entries — which entry is unspecified, because it is the last in
the `HashMap`'s iteration order. -/
theorem values_characterization {T : Type} (dT : Json → Option T) (body : Json)
    (resp : SearchResponse T) (m : Option Meta) (rest : List (String × List T))
    (hparse : parseSearchBody dT body = some (m, rest))
    (hde : SearchDeserializesTo dT body resp) :
    resp.meta = m ∧
    (∀ k vs, rest = [(k, vs)] → resp.values = some vs) ∧
    (rest ≠ [] → ∃ kv, kv ∈ rest ∧ resp.values = some kv.snd) := by
  obtain ⟨rest', hparse', hperm⟩ := hde
  rw [hparse] at hparse'
  have hm : m = resp.meta := congrArg Prod.fst (Option.some.inj hparse')
  have hr : rest = rest' := congrArg Prod.snd (Option.some.inj hparse')
  subst hr
  refine ⟨hm.symm, ?_, ?_⟩
  · intro k vs hsingle
    subst hsingle
    have hrr : resp.rest = [(k, vs)] := List.perm_singleton.mp hperm
    simp [SearchResponse.values, hrr]
  · intro hne
    have hne' : resp.rest ≠ [] := by
      intro h0
      rw [h0] at hperm
      exact hne hperm.symm.eq_nil
    obtain ⟨kv, hmem, heq⟩ := map_snd_getLast resp.rest hne'
    exact ⟨kv, hperm.mem_iff.mp hmem, heq⟩

/-- Witness for the C6 characterization: the spec's own example, a `meta`
plus a sole `"routes"` key with two elements, in original order. -/
theorem values_characterization_witness :
    (SearchResponse.mk (T := Nat)
        (some { after := 5, next := "https://transit.land/api/v2/rest/routes?after=5" })
        [("routes", [7, 9])]).values = some [7, 9] := by
  have h := values_characterization deserializeU64
      (Json.obj [("meta", Json.obj [("after", Json.num 5),
          ("next", Json.str "https://transit.land/api/v2/rest/routes?after=5")]),
        ("routes", Json.arr [Json.num 7, Json.num 9])])
      ⟨some { after := 5, next := "https://transit.land/api/v2/rest/routes?after=5" },
        [("routes", [7, 9])]⟩
      (some { after := 5, next := "https://transit.land/api/v2/rest/routes?after=5" })
      [("routes", [7, 9])] rfl
      ⟨[("routes", [7, 9])], rfl, List.Perm.refl _⟩
  exact h.2.1 "routes" [7, 9] rfl

/-- Claim C6 (counterexample): with two populated keys, inserted in body
order `"a"` then `"b"`, the iteration order `[("b", _), ("a", _)]` is an
admissible `HashMap` ordering, and on it `values()` returns the list for
`"a"` — not the last inserted entry (`"b"`), as the claim states. -/
theorem values_multi_key_counterexample :
    SearchDeserializesTo deserializeU64
      (Json.obj [("a", Json.arr [Json.num 1]), ("b", Json.arr [Json.num 2])])
      (SearchResponse.mk (T := Nat) none [("b", [2]), ("a", [1])]) ∧
    (SearchResponse.mk (T := Nat) none [("b", [2]), ("a", [1])]).values ≠ some [2] := by
  constructor
  · exact ⟨[("a", [1]), ("b", [2])], rfl, List.Perm.swap ("a", [1]) ("b", [2]) []⟩
  · decide

/-- Claim C10: the builder's `spec` field has no effect on issued requests
or results: two builders differing only in `spec` build identical search
and get requests, their calls return identical results for the same
transport, and no "spec" query parameter is ever attached. -/
theorem spec_field_no_effect {P T : Type} [TransitlandObject P T]
    (r1 r2 : Request) (hafter : r1.after = r2.after) (hlimit : r1.limit = r2.limit)
    (hbase : r1.base_url = r2.base_url) (parent : P) (dT : Json → Option T)
    (query key apiKey : String) (send : HttpRequest → Except String Json) :
    r1.searchRequest (TransitlandObject.query_path (T := T) parent) query apiKey
      = r2.searchRequest (TransitlandObject.query_path (T := T) parent) query apiKey ∧
    r1.getRequest (TransitlandObject.by_id_path (T := T) parent) key apiKey
      = r2.getRequest (TransitlandObject.by_id_path (T := T) parent) key apiKey ∧
    r1.search_with_parent parent dT query apiKey send
      = r2.search_with_parent parent dT query apiKey send ∧
    r1.get_with_parent parent dT key apiKey send
      = r2.get_with_parent parent dT key apiKey send ∧
    "spec" ∉ (r1.searchRequest (TransitlandObject.query_path (T := T) parent)
        query apiKey).query.map Prod.fst ∧
    "spec" ∉ (r1.getRequest (TransitlandObject.by_id_path (T := T) parent)
        key apiKey).query.map Prod.fst := by
  have hsr : r1.searchRequest (TransitlandObject.query_path (T := T) parent) query apiKey
      = r2.searchRequest (TransitlandObject.query_path (T := T) parent) query apiKey := by
    unfold Request.searchRequest
    rw [hlimit]
  have hgr : r1.getRequest (TransitlandObject.by_id_path (T := T) parent) key apiKey
      = r2.getRequest (TransitlandObject.by_id_path (T := T) parent) key apiKey := by
    unfold Request.getRequest
    rw [hlimit]
  refine ⟨hsr, hgr, ?_, ?_, ?_, ?_⟩
  · unfold Request.search_with_parent
    rw [hsr]
  · unfold Request.get_with_parent
    rw [hgr]
  · simp [Request.searchRequest]
  · simp [Request.getRequest]

/-- Witness for C10: two concrete builders differing only in `spec` build
the same search request and return the same `get` result. -/
theorem spec_field_no_effect_witness :
    (Request.new.with_spec Spec.MDS).searchRequest
        (TransitlandObject.query_path (P := Unit) (T := Feed) ()) "bart" "key"
      = Request.new.searchRequest
        (TransitlandObject.query_path (P := Unit) (T := Feed) ()) "bart" "key" ∧
    (Request.new.with_spec Spec.MDS).get_with_parent () deserializeFeed "f-x" "key"
        (fun _ => .ok Json.null)
      = Request.new.get_with_parent () deserializeFeed "f-x" "key"
        (fun _ => .ok Json.null) := by
  have h := spec_field_no_effect (Request.new.with_spec Spec.MDS) Request.new rfl rfl rfl
      () deserializeFeed "bart" "f-x" "key" (fun _ => .ok Json.null)
  exact ⟨h.1, h.2.2.2.1⟩
